import Mathlib

/-!
Shallow embedding of the SageMaker multi-container endpoint notebook
(sagemaker-notebook.ipynb): the notebook is straight-line code issuing
remote SDK calls, so it is modelled as the ordered trace of those calls,
a resource-state machine for the cloud-side effects, and an exception
monad run for the single try/except block.
-/

namespace MceNotebook

/-- Python exception values as far as the notebook distinguishes them: its
single except clause catches exactly ValueError; every other exception class
is collapsed into an uninterpreted tag. -/
inductive PyError where
  | valueError : PyError
  | other : String → PyError
deriving DecidableEq

/-- Python comparison of two strings, as lists of characters: lexicographic
by code point, a strict prefix being smaller. -/
def pyStrLt : List Char → List Char → Bool
  | [], [] => false
  | [], _ :: _ => true
  | _ :: _, [] => false
  | a :: as, b :: bs =>
    if a < b then true
    else if b < a then false
    else pyStrLt as bs

/-- The assert cell checks sagemaker version greater-or-equal 2.75.0, which
in Python is the negation of the lexicographic strictly-less comparison. -/
def versionAssertPasses (v : String) : Bool :=
  !(pyStrLt v.toList "2.75.0".toList)

/-- Split a character list at every dot, keeping the groups between dots. -/
def splitDots : List Char → List (List Char)
  | [] => [[]]
  | c :: cs =>
    let r := splitDots cs
    if c = '.' then [] :: r
    else
      match r with
      | [] => [[c]]
      | g :: gs => (c :: g) :: gs

/-- Decimal value of a digit group. -/
def charsToNat (g : List Char) : Nat :=
  g.foldl (fun acc c => acc * 10 + (c.toNat - 48)) 0

/-- Numeric components of a dotted version string. This definition follows
the wording of the claim about numeric version order, as a contrast to the
string comparison the code performs; it is not code of the notebook. -/
def versionComponents (v : String) : List Nat :=
  (splitDots v.toList).map charsToNat

/-- Numeric (component-wise) version order, the order the assert cell does
NOT implement. -/
def numericVersionGe (a b : String) : Bool :=
  !(decide (versionComponents a < versionComponents b))

/-- A container descriptor as listed in Containers of create_model. -/
structure ContainerDef where
  Image : String
  ContainerHostname : String
  Environment : List (String × String)
deriving DecidableEq

/-- The InferenceExecutionConfig dictionary of create_model. -/
structure InferenceExecConfig where
  Mode : String
deriving DecidableEq

/-- The english model cell: image is the resolved Hugging Face inference
DLC uri. -/
def englishModel (hf_inference_dlc : String) : ContainerDef :=
  { Image := hf_inference_dlc,
    ContainerHostname := "englishModel",
    Environment :=
      [("HF_MODEL_ID", "distilbert-base-uncased-finetuned-sst-2-english"),
       ("HF_TASK", "text-classification")] }

/-- The german model cell. -/
def germanModel (hf_inference_dlc : String) : ContainerDef :=
  { Image := hf_inference_dlc,
    ContainerHostname := "germanModel",
    Environment :=
      [("HF_MODEL_ID", "oliverguhr/german-sentiment-bert"),
       ("HF_TASK", "text-classification")] }

/-- Mode is set to Direct for direct invocation of each container. -/
def inferenceExecutionConfig : InferenceExecConfig :=
  { Mode := "Direct" }

def deployment_name : String := "multi-container-sentiment"

def instance_type : String := "ml.c5.4xlarge"

/-- Keyword arguments of the image_uris.retrieve call. -/
structure RetrieveReq where
  framework : String
  region : String
  version : String
  image_scope : String
  base_framework_version : String
  py_version : String
  container_version : String
  instance_type : String
deriving DecidableEq

/-- The retrieve call of the notebook; region comes from the session. -/
def hfDlcRetrieveReq (region : String) : RetrieveReq :=
  { framework := "huggingface",
    region := region,
    version := "4.12.3",
    image_scope := "inference",
    base_framework_version := "pytorch1.9.1",
    py_version := "py38",
    container_version := "ubuntu20.04",
    instance_type := "ml.c5.xlarge" }

/-- Request of sm_client.create_model. -/
structure CreateModelReq where
  ModelName : String
  InferenceExecutionConfig : InferenceExecConfig
  ExecutionRoleArn : String
  Containers : List ContainerDef
deriving DecidableEq

/-- One entry of ProductionVariants. -/
structure ProductionVariant where
  VariantName : String
  ModelName : String
  InitialInstanceCount : Nat
  InstanceType : String
deriving DecidableEq

/-- Request of sm_client.create_endpoint_config. -/
structure CreateEndpointConfigReq where
  EndpointConfigName : String
  ProductionVariants : List ProductionVariant
deriving DecidableEq

/-- Request of sm_client.create_endpoint. -/
structure CreateEndpointReq where
  EndpointName : String
  EndpointConfigName : String
deriving DecidableEq

/-- Request of invoke_client.invoke_endpoint. -/
structure InvokeEndpointReq where
  EndpointName : String
  ContentType : String
  Accept : String
  TargetContainerHostname : String
  Body : String
deriving DecidableEq

/-- json.dumps of a flat Python dict from strings to strings, with the
default separators; both notebook payloads are plain ASCII so no escaping
arises. -/
def jsonDumps (d : List (String × String)) : String :=
  "\x7b" ++
    String.intercalate ", "
      (d.map (fun p => "\"" ++ p.1 ++ "\": \"" ++ p.2 ++ "\"")) ++
  "\x7d"

def english_payload : List (String × String) :=
  [("inputs", "This is a great way for saving money and optimizing my resources.")]

def german_payload : List (String × String) :=
  [("inputs", "Das wird uns sehr helfen unsere Ressourcen effizient zu nutzen.")]

/-- One remote SDK operation performed by the notebook. The two delete
operations are the Predictor methods called in the teardown cell, carrying
the endpoint name the predictor was constructed with. -/
inductive ApiCall where
  | imageUrisRetrieve (req : RetrieveReq)
  | createModel (req : CreateModelReq)
  | createEndpointConfig (req : CreateEndpointConfigReq)
  | createEndpoint (req : CreateEndpointReq)
  | invokeEndpoint (req : InvokeEndpointReq)
  | predict (payload : List (String × String)) (initial_args : List (String × String))
  | deleteModel (endpointName : String)
  | deleteEndpoint (endpointName : String)
deriving DecidableEq

/-- The create_model request of the deployment cell. -/
def createModelReq (role img : String) : CreateModelReq :=
  { ModelName := deployment_name ++ "-model",
    InferenceExecutionConfig := inferenceExecutionConfig,
    ExecutionRoleArn := role,
    Containers := [englishModel img, germanModel img] }

/-- The create_endpoint_config request of the deployment cell. -/
def createEndpointConfigReq : CreateEndpointConfigReq :=
  { EndpointConfigName := deployment_name ++ "-config",
    ProductionVariants :=
      [{ VariantName := "AllTraffic",
         ModelName := deployment_name ++ "-model",
         InitialInstanceCount := 1,
         InstanceType := instance_type }] }

/-- The create_endpoint request of the deployment cell. -/
def createEndpointReq : CreateEndpointReq :=
  { EndpointName := deployment_name ++ "-ep",
    EndpointConfigName := deployment_name ++ "-config" }

/-- The three calls of the deployment cell, in program order. -/
def deploymentCalls (role img : String) : List ApiCall :=
  [ApiCall.createModel (createModelReq role img),
   ApiCall.createEndpointConfig createEndpointConfigReq,
   ApiCall.createEndpoint createEndpointReq]

/-- The boto3 invoke_endpoint request routed to the english container. -/
def invokeEnglishReq : InvokeEndpointReq :=
  { EndpointName := deployment_name ++ "-ep",
    ContentType := "application/json",
    Accept := "application/json",
    TargetContainerHostname := "englishModel",
    Body := jsonDumps english_payload }

/-- The boto3 invoke_endpoint request routed to the german container. -/
def invokeGermanReq : InvokeEndpointReq :=
  { EndpointName := deployment_name ++ "-ep",
    ContentType := "application/json",
    Accept := "application/json",
    TargetContainerHostname := "germanModel",
    Body := jsonDumps german_payload }

/-- predictor.predict of the english payload with its initial_args dict. -/
def predictEnglish : ApiCall :=
  ApiCall.predict english_payload [("TargetContainerHostname", "englishModel")]

/-- predictor.predict of the german payload with its initial_args dict. -/
def predictGerman : ApiCall :=
  ApiCall.predict german_payload [("TargetContainerHostname", "germanModel")]

/-- The two boto3 invocations followed by the two predictor invocations,
in program order. -/
def invocationDemoCalls : List ApiCall :=
  [ApiCall.invokeEndpoint invokeEnglishReq,
   ApiCall.invokeEndpoint invokeGermanReq,
   predictEnglish,
   predictGerman]

/-- Trace of the load-test for-loop after n iterations: each iteration
sends one english request then one german request; the notebook runs it
with range 1000. -/
def loadTestCalls : Nat → List ApiCall
  | 0 => []
  | n + 1 => loadTestCalls n ++ [predictEnglish, predictGerman]

/-- The teardown cell: predictor.delete_model then predictor.delete_endpoint,
on the predictor bound to the deployment endpoint. -/
def teardownCalls : List ApiCall :=
  [ApiCall.deleteModel (deployment_name ++ "-ep"),
   ApiCall.deleteEndpoint (deployment_name ++ "-ep")]

/-- All remote calls after role resolution and image resolution, in program
order. -/
def mainCalls (role img : String) : List ApiCall :=
  deploymentCalls role img ++ invocationDemoCalls ++ loadTestCalls 1000 ++ teardownCalls

/-- The full ordered trace of remote operations of the notebook: the image
resolution followed by the main calls. -/
def notebookTrace (region role img : String) : List ApiCall :=
  ApiCall.imageUrisRetrieve (hfDlcRetrieveReq region) :: mainCalls role img

/-- Data-plane operations are the endpoint invocations. -/
def ApiCall.isDataPlane : ApiCall → Bool
  | .invokeEndpoint _ => true
  | .predict _ _ => true
  | _ => false

/-- Image resolution marker. -/
def ApiCall.isRetrieve : ApiCall → Bool
  | .imageUrisRetrieve _ => true
  | _ => false

/-- The routing field of a data-plane call: the TargetContainerHostname
request field of invoke_endpoint, or the TargetContainerHostname entry of
the initial_args dict of predict. -/
def ApiCall.targetHost : ApiCall → Option String
  | .invokeEndpoint r => some r.TargetContainerHostname
  | .predict _ args => args.lookup "TargetContainerHostname"
  | _ => none

/-- Whether a data-plane call carries exactly the given payload dict: an
invoke_endpoint body is its json.dumps serialization, a predict call passes
the dict itself. -/
def ApiCall.carriesPayload : ApiCall → List (String × String) → Bool
  | .invokeEndpoint r, p => r.Body == jsonDumps p
  | .predict q _, p => q == p
  | _, _ => false

/-- Operation name, for stating call order without repeating requests. -/
def ApiCall.opName : ApiCall → String
  | .imageUrisRetrieve _ => "image_uris.retrieve"
  | .createModel _ => "create_model"
  | .createEndpointConfig _ => "create_endpoint_config"
  | .createEndpoint _ => "create_endpoint"
  | .invokeEndpoint _ => "invoke_endpoint"
  | .predict _ _ => "predict"
  | .deleteModel _ => "delete_model"
  | .deleteEndpoint _ => "delete_endpoint"

/-- Cloud-side resources existing at a point of the run, with the
associations the platform keeps: each endpoint configuration records the
model names of its production variants, each endpoint records its
configuration name. -/
structure CloudState where
  models : List String
  endpointConfigs : List (String × List String)
  endpoints : List (String × String)
deriving DecidableEq

def CloudState.empty : CloudState :=
  { models := [], endpointConfigs := [], endpoints := [] }

/-- Effect of one operation on the cloud resource state. Create calls
register the named resource. The delete operations embed the sagemaker SDK
Predictor methods the teardown cell calls: Predictor delete_model deletes
the models referenced by the configuration of the predictor endpoint, and
Predictor delete_endpoint, whose delete_endpoint_config argument defaults
to True, deletes that configuration and then the endpoint itself.
Invocations and image resolution do not change resource state. -/
def applyCall (s : CloudState) : ApiCall → CloudState
  | .createModel r =>
      { s with models := s.models ++ [r.ModelName] }
  | .createEndpointConfig r =>
      { s with endpointConfigs :=
          s.endpointConfigs ++
            [(r.EndpointConfigName, r.ProductionVariants.map (fun v => v.ModelName))] }
  | .createEndpoint r =>
      { s with endpoints := s.endpoints ++ [(r.EndpointName, r.EndpointConfigName)] }
  | .deleteModel ep =>
      let cfg := (s.endpoints.lookup ep).getD ""
      let ms := (s.endpointConfigs.lookup cfg).getD []
      { s with models := s.models.filter (fun m => !(ms.contains m)) }
  | .deleteEndpoint ep =>
      let cfg := (s.endpoints.lookup ep).getD ""
      { s with
          endpointConfigs := s.endpointConfigs.filter (fun p => p.1 != cfg),
          endpoints := s.endpoints.filter (fun p => p.1 != ep) }
  | _ => s

/-- Cloud resource state after the whole notebook trace. -/
def finalState (region role img : String) : CloudState :=
  (notebookTrace region role img).foldl applyCall CloudState.empty

/-- Outcomes of the remote operations, supplied by the surrounding cloud:
the notebook decides nothing about them. iam_get_role_arn returns the Arn
field of the Role of the iam get_role response. -/
structure Env where
  boto_region_name : String
  get_execution_role : Except PyError String
  iam_get_role_arn : String → Except PyError String
  image_uris_retrieve : RetrieveReq → Except PyError String
  call : ApiCall → Except PyError String

/-- The role resolution cell: try sagemaker get_execution_role, and on a
ValueError fall back to the Arn of the IAM role named
sagemaker_execution_role; any other exception propagates. -/
def resolveRole (env : Env) : Except PyError String :=
  match env.get_execution_role with
  | .ok r => .ok r
  | .error .valueError => env.iam_get_role_arn "sagemaker_execution_role"
  | .error e => .error e

/-- Run a list of remote calls in order, stopping at the first exception;
no call result is inspected by control flow and no handler is installed. -/
def runCalls (env : Env) : List ApiCall → Except PyError Unit
  | [] => .ok ()
  | c :: cs =>
    match env.call c with
    | .ok _ => runCalls env cs
    | .error e => .error e

/-- The whole notebook as one run: role resolution, image resolution, then
every remote call in program order; only the role cell has a handler. -/
def runNotebook (env : Env) : Except PyError Unit :=
  match resolveRole env with
  | .error e => .error e
  | .ok role =>
    match env.image_uris_retrieve (hfDlcRetrieveReq env.boto_region_name) with
    | .error e => .error e
    | .ok img => runCalls env (mainCalls role img)

/-! Helper lemmas. -/

/-- The boolean Python comparison agrees with the lexicographic strict order
on lists of characters. -/
theorem pyStrLt_iff_lt (a b : List Char) : pyStrLt a b = true ↔ List.lt a b := by
  induction a generalizing b with
  | nil =>
    cases b with
    | nil =>
      simp only [pyStrLt, Bool.false_eq_true, false_iff]
      intro h
      cases h
    | cons y ys =>
      simp only [pyStrLt, true_iff]
      exact List.lt.nil y ys
  | cons x xs ih =>
    cases b with
    | nil =>
      simp only [pyStrLt, Bool.false_eq_true, false_iff]
      intro h
      cases h
    | cons y ys =>
      by_cases hxy : x < y
      · simp only [pyStrLt, hxy, if_true, true_iff]
        exact List.lt.head xs ys hxy
      · by_cases hyx : y < x
        · simp only [pyStrLt, hxy, hyx, if_true, if_false, Bool.false_eq_true, false_iff]
          intro h
          cases h with
          | head _ _ h => exact hxy h
          | tail h1 h2 h3 => exact h2 hyx
        · simp only [pyStrLt, hxy, hyx, if_false, ih]
          constructor
          · intro h
            exact List.lt.tail hxy hyx h
          · intro h
            cases h with
            | head _ _ h => exact absurd h hxy
            | tail h1 h2 h3 => exact h3

/-- Every call in the load-test trace is one of the two predictor calls. -/
theorem mem_loadTestCalls {c : ApiCall} {n : Nat} (h : c ∈ loadTestCalls n) :
    c = predictEnglish ∨ c = predictGerman := by
  induction n with
  | zero => cases h
  | succ n ih =>
    rw [loadTestCalls] at h
    rcases List.mem_append.mp h with h | h
    · exact ih h
    · rcases List.mem_cons.mp h with h | h
      · exact Or.inl h
      · rcases List.mem_cons.mp h with h | h
        · exact Or.inr h
        · cases h

/-- Length of the load-test trace. -/
theorem loadTestCalls_length (n : Nat) : (loadTestCalls n).length = 2 * n := by
  induction n with
  | zero => rfl
  | succ n ih =>
    rw [loadTestCalls, List.length_append, ih]
    show 2 * n + 2 = 2 * (n + 1)
    omega

/-- Count of english-routed calls in the load-test trace. -/
theorem loadTestCalls_count_english (n : Nat) :
    (loadTestCalls n).countP (fun c => c.targetHost == some "englishModel") = n := by
  induction n with
  | zero => rfl
  | succ n ih =>
    rw [loadTestCalls, List.countP_append, ih]
    rfl

/-- Count of german-routed calls in the load-test trace. -/
theorem loadTestCalls_count_german (n : Nat) :
    (loadTestCalls n).countP (fun c => c.targetHost == some "germanModel") = n := by
  induction n with
  | zero => rfl
  | succ n ih =>
    rw [loadTestCalls, List.countP_append, ih]
    rfl

/-- Iteration k of the load test sends the english request at position 2k
and the german request right after it. -/
theorem loadTestCalls_getElem (n k : Nat) (h : k < n) :
    (loadTestCalls n)[2 * k]? = some predictEnglish ∧
    (loadTestCalls n)[2 * k + 1]? = some predictGerman := by
  induction n with
  | zero => omega
  | succ n ih =>
    rw [loadTestCalls]
    rcases Nat.lt_succ_iff_lt_or_eq.mp h with h | h
    · have hl : (loadTestCalls n).length = 2 * n := loadTestCalls_length n
      rw [List.getElem?_append, List.getElem?_append, if_pos (by omega), if_pos (by omega)]
      exact ih h
    · subst h
      have hlen : (loadTestCalls k).length = 2 * k := loadTestCalls_length k
      constructor
      · rw [List.getElem?_append_right (by omega), hlen, Nat.sub_self]
        rfl
      · rw [List.getElem?_append_right (by omega), hlen]
        have h1 : 2 * k + 1 - 2 * k = 1 := by omega
        rw [h1]
        rfl

/-- No image resolution happens inside the load test. -/
theorem loadTestCalls_countP_isRetrieve (n : Nat) :
    (loadTestCalls n).countP (fun c => c.isRetrieve) = 0 := by
  induction n with
  | zero => rfl
  | succ n ih =>
    rw [loadTestCalls, List.countP_append, ih]
    rfl

/-- The load test does not change cloud resource state. -/
theorem foldl_applyCall_loadTestCalls (n : Nat) (s : CloudState) :
    (loadTestCalls n).foldl applyCall s = s := by
  induction n generalizing s with
  | zero => rfl
  | succ n ih =>
    rw [loadTestCalls, List.foldl_append, ih]
    rfl

/-- Running calls where a prefix succeeds and then one call raises yields
exactly that exception. -/
theorem runCalls_error (env : Env) (cs1 : List ApiCall) (c : ApiCall) (cs2 : List ApiCall)
    (e : PyError) (h1 : ∀ c1, c1 ∈ cs1 → ∃ s, env.call c1 = Except.ok s)
    (h2 : env.call c = Except.error e) :
    runCalls env (cs1 ++ c :: cs2) = Except.error e := by
  induction cs1 with
  | nil =>
    rw [List.nil_append, runCalls, h2]
  | cons a as ih =>
    obtain ⟨s, hs⟩ := h1 a (List.mem_cons_self a as)
    rw [List.cons_append, runCalls, hs]
    exact ih (fun c1 hc1 => h1 c1 (List.mem_cons_of_mem a hc1))

/-! Claims. -/

/-- Claim C8: the version assertion is Python string comparison, hence
lexicographic: it passes exactly when the version string is not
lexicographically below 2.75.0; in particular 2.75.0 itself passes while
2.100.0 fails the check even though its numeric components are not below
those of 2.75.0, so the outcome follows string order, not numeric order. -/
theorem c8_version_assert_lexicographic :
    (∀ v : String, versionAssertPasses v = true ↔ ¬ List.lt v.toList "2.75.0".toList) ∧
    versionAssertPasses "2.75.0" = true ∧
    versionAssertPasses "2.76.0" = true ∧
    versionAssertPasses "2.100.0" = false ∧
    numericVersionGe "2.100.0" "2.75.0" = true := by
  refine ⟨?_, by decide, by decide, by decide, by decide⟩
  intro v
  rw [versionAssertPasses, Bool.not_eq_true', ← Bool.not_eq_true, pyStrLt_iff_lt]

/-- Claim C2: the deployment cell performs exactly three control-plane
calls, create model then create endpoint configuration then create
endpoint, and each later call names the resource the earlier one created:
the configuration variant names the model multi-container-sentiment-model
and the endpoint names the configuration multi-container-sentiment-config. -/
theorem c2_deployment_sequence (role img : String) :
    (deploymentCalls role img).map ApiCall.opName =
      ["create_model", "create_endpoint_config", "create_endpoint"] ∧
    (deploymentCalls role img)[0]? = some (ApiCall.createModel (createModelReq role img)) ∧
    (deploymentCalls role img)[1]? = some (ApiCall.createEndpointConfig createEndpointConfigReq) ∧
    (deploymentCalls role img)[2]? = some (ApiCall.createEndpoint createEndpointReq) ∧
    (createModelReq role img).ModelName = "multi-container-sentiment-model" ∧
    createEndpointConfigReq.ProductionVariants.map (fun v => v.ModelName) =
      ["multi-container-sentiment-model"] ∧
    createEndpointConfigReq.EndpointConfigName = "multi-container-sentiment-config" ∧
    createEndpointReq.EndpointConfigName = "multi-container-sentiment-config" ∧
    createEndpointReq.EndpointName = "multi-container-sentiment-ep" :=
  ⟨rfl, rfl, rfl, rfl, rfl, rfl, rfl, rfl, rfl⟩

/-- Claim C3: the created model bundles exactly the two container
descriptors with hostnames englishModel and germanModel, both carrying the
same resolved image reference, and environments setting exactly HF_MODEL_ID
and HF_TASK to the documented values. -/
theorem c3_two_containers (role img : String) :
    (createModelReq role img).Containers = [englishModel img, germanModel img] ∧
    (englishModel img).ContainerHostname = "englishModel" ∧
    (germanModel img).ContainerHostname = "germanModel" ∧
    (englishModel img).Image = img ∧
    (germanModel img).Image = img ∧
    (englishModel img).Environment =
      [("HF_MODEL_ID", "distilbert-base-uncased-finetuned-sst-2-english"),
       ("HF_TASK", "text-classification")] ∧
    (germanModel img).Environment =
      [("HF_MODEL_ID", "oliverguhr/german-sentiment-bert"),
       ("HF_TASK", "text-classification")] :=
  ⟨rfl, rfl, rfl, rfl, rfl, rfl, rfl⟩

/-- Claim C4: the inference execution mode is Direct, one of the two
admissible values Direct and Serial, and the InferenceExecutionConfig
value is passed unchanged into the create-model request. -/
theorem c4_direct_mode (role img : String) :
    inferenceExecutionConfig.Mode = "Direct" ∧
    (inferenceExecutionConfig.Mode = "Direct" ∨ inferenceExecutionConfig.Mode = "Serial") ∧
    (createModelReq role img).InferenceExecutionConfig = inferenceExecutionConfig :=
  ⟨rfl, Or.inl rfl, rfl⟩

/-- Claim C6: the load test is a sequential loop of 1000 iterations, each
first sending the english-routed request then the german-routed one, so its
trace has length 2000, position 2k holds the english call and position 2k+1
the german call of iteration k, and each container receives exactly 1000
requests; sequentiality is the trace being one ordered list. -/
theorem c6_load_test_alternation (k : Nat) (h : k < 1000) :
    (loadTestCalls 1000).length = 2000 ∧
    (loadTestCalls 1000)[2 * k]? = some predictEnglish ∧
    (loadTestCalls 1000)[2 * k + 1]? = some predictGerman ∧
    (loadTestCalls 1000).countP (fun c => c.targetHost == some "englishModel") = 1000 ∧
    (loadTestCalls 1000).countP (fun c => c.targetHost == some "germanModel") = 1000 := by
  obtain ⟨h1, h2⟩ := loadTestCalls_getElem 1000 k h
  exact ⟨by rw [loadTestCalls_length], h1, h2,
    loadTestCalls_count_english 1000, loadTestCalls_count_german 1000⟩

/-- Witness for claim C6 at iteration zero. -/
theorem c6_load_test_alternation_witness :
    (loadTestCalls 1000).length = 2000 ∧
    (loadTestCalls 1000)[2 * 0]? = some predictEnglish ∧
    (loadTestCalls 1000)[2 * 0 + 1]? = some predictGerman ∧
    (loadTestCalls 1000).countP (fun c => c.targetHost == some "englishModel") = 1000 ∧
    (loadTestCalls 1000).countP (fun c => c.targetHost == some "germanModel") = 1000 :=
  c6_load_test_alternation 0 (by decide)

/-- Claim C9: the image reference is resolved exactly once in the whole
trace, with instance type ml.c5.xlarge, the resolved string is reused
unchanged as the image of both container descriptors, while the endpoint
configuration deploys a single instance of the different type
ml.c5.4xlarge. -/
theorem c9_image_resolved_once (region role img : String) :
    (notebookTrace region role img).countP (fun c => c.isRetrieve) = 1 ∧
    (hfDlcRetrieveReq region).instance_type = "ml.c5.xlarge" ∧
    (createModelReq role img).Containers.map (fun c => c.Image) = [img, img] ∧
    createEndpointConfigReq.ProductionVariants.map (fun v => v.InstanceType) =
      ["ml.c5.4xlarge"] ∧
    createEndpointConfigReq.ProductionVariants.map (fun v => v.InitialInstanceCount) = [1] ∧
    ("ml.c5.xlarge" : String) ≠ instance_type := by
  have hmain : (mainCalls role img).countP (fun c => c.isRetrieve) = 0 := by
    rw [mainCalls, List.countP_append, List.countP_append, List.countP_append,
      loadTestCalls_countP_isRetrieve]
    rfl
  refine ⟨?_, rfl, rfl, rfl, rfl, by decide⟩
  rw [notebookTrace, List.countP_cons, hmain]
  rfl

/-- Claim C1: every data-plane call of the notebook trace carries the
routing field TargetContainerHostname, valued englishModel or germanModel:
the boto3 invocations carry it as a request field and the predictor
invocations carry it in their initial_args dict. -/
theorem c1_routing_field (region role img : String) (c : ApiCall)
    (hmem : c ∈ notebookTrace region role img) (hdp : c.isDataPlane = true) :
    c.targetHost = some "englishModel" ∨ c.targetHost = some "germanModel" := by
  rw [notebookTrace] at hmem
  rcases List.mem_cons.mp hmem with h | h
  · subst h
    simp [ApiCall.isDataPlane] at hdp
  · rw [mainCalls] at h
    simp only [List.mem_append] at h
    rcases h with ((h | h) | h) | h
    · rw [deploymentCalls] at h
      fin_cases h <;> simp [ApiCall.isDataPlane] at hdp
    · rw [invocationDemoCalls] at h
      fin_cases h
      · exact Or.inl rfl
      · exact Or.inr rfl
      · exact Or.inl (by decide)
      · exact Or.inr (by decide)
    · rcases mem_loadTestCalls h with h | h
      · subst h
        exact Or.inl (by decide)
      · subst h
        exact Or.inr (by decide)
    · rw [teardownCalls] at h
      rcases List.mem_cons.mp h with h | h
      · subst h
        simp [ApiCall.isDataPlane] at hdp
      · rcases List.mem_cons.mp h with h | h
        · subst h
          simp [ApiCall.isDataPlane] at hdp
        · cases h

/-- Witness for claim C1 at a concrete trace element. -/
theorem c1_routing_field_witness :
    ApiCall.targetHost predictEnglish = some "englishModel" ∨
    ApiCall.targetHost predictEnglish = some "germanModel" :=
  c1_routing_field "us-east-1" "arn:aws:iam::111122223333:role/sm" "img" predictEnglish
    (by decide) (by decide)

/-- Claim C10: the payload of every invocation is a function of its target:
calls routed to englishModel carry exactly the fixed english payload and
calls routed to germanModel carry exactly the fixed german payload, across
the boto3 invocations, the predictor invocations, and every load-test
iteration. -/
theorem c10_payload_by_target (region role img : String) (c : ApiCall)
    (hmem : c ∈ notebookTrace region role img) :
    (c.targetHost = some "englishModel" → c.carriesPayload english_payload = true) ∧
    (c.targetHost = some "germanModel" → c.carriesPayload german_payload = true) := by
  rw [notebookTrace] at hmem
  rcases List.mem_cons.mp hmem with h | h
  · subst h
    exact ⟨fun hx => Option.noConfusion hx, fun hx => Option.noConfusion hx⟩
  · rw [mainCalls] at h
    simp only [List.mem_append] at h
    rcases h with ((h | h) | h) | h
    · rw [deploymentCalls] at h
      fin_cases h <;>
        exact ⟨fun hx => Option.noConfusion hx, fun hx => Option.noConfusion hx⟩
    · rw [invocationDemoCalls] at h
      fin_cases h
      · exact ⟨by decide, by decide⟩
      · exact ⟨by decide, by decide⟩
      · exact ⟨by decide, by decide⟩
      · exact ⟨by decide, by decide⟩
    · rcases mem_loadTestCalls h with h | h
      · subst h
        exact ⟨by decide, by decide⟩
      · subst h
        exact ⟨by decide, by decide⟩
    · rw [teardownCalls] at h
      rcases List.mem_cons.mp h with h | h
      · subst h
        exact ⟨fun hx => Option.noConfusion hx, fun hx => Option.noConfusion hx⟩
      · rcases List.mem_cons.mp h with h | h
        · subst h
          exact ⟨fun hx => Option.noConfusion hx, fun hx => Option.noConfusion hx⟩
        · cases h

/-- Witness for claim C10 at a concrete trace element. -/
theorem c10_payload_by_target_witness :
    (ApiCall.targetHost (ApiCall.invokeEndpoint invokeEnglishReq) = some "englishModel" →
      ApiCall.carriesPayload (ApiCall.invokeEndpoint invokeEnglishReq) english_payload = true) ∧
    (ApiCall.targetHost (ApiCall.invokeEndpoint invokeEnglishReq) = some "germanModel" →
      ApiCall.carriesPayload (ApiCall.invokeEndpoint invokeEnglishReq) german_payload = true) :=
  c10_payload_by_target "us-east-1" "arn:aws:iam::111122223333:role/sm" "img"
    (ApiCall.invokeEndpoint invokeEnglishReq) (by decide)

/-- Claim C7: after the full trace, the model, the endpoint configuration
and the endpoint created by the notebook are all gone: the teardown cell
deletes the model via the predictor, and deleting the endpoint also deletes
its configuration, leaving the cloud resource state empty. -/
theorem c7_teardown_empties (region role img : String) :
    finalState region role img = CloudState.empty := by
  rw [finalState, notebookTrace]
  simp only [mainCalls, List.foldl_cons, List.foldl_append]
  rw [foldl_applyCall_loadTestCalls]
  rfl

/-- Environment where the default role lookup raises ValueError and every
other operation succeeds. -/
def envRoleValueError : Env :=
  { boto_region_name := "us-east-1",
    get_execution_role := Except.error PyError.valueError,
    iam_get_role_arn := fun _ =>
      Except.ok "arn:aws:iam::111122223333:role/sagemaker_execution_role",
    image_uris_retrieve := fun _ => Except.ok "763104351884.dkr.ecr.us-east-1.amazonaws.com/huggingface-pytorch-inference:1.9.1-transformers4.12.3-gpu-py38-cu111-ubuntu20.04",
    call := fun _ => Except.ok "" }

/-- Environment where the default role lookup raises a non-ValueError
exception, as a botocore client error is, and every other operation
succeeds. -/
def envRoleClientError : Env :=
  { envRoleValueError with
      get_execution_role := Except.error (PyError.other "botocore.exceptions.ClientError") }

/-- Claim C5 counterexample: a failure of the default execution-role lookup
that is not a ValueError is not replaced by the named IAM role lookup, even
though the environment would answer that lookup: the exception propagates
out of the run, so it is not true that whenever get_execution_role fails
the role is taken from the IAM role sagemaker_execution_role. -/
theorem c5_counterexample_nonvalueerror :
    envRoleClientError.get_execution_role =
      Except.error (PyError.other "botocore.exceptions.ClientError") ∧
    envRoleClientError.iam_get_role_arn "sagemaker_execution_role" =
      Except.ok "arn:aws:iam::111122223333:role/sagemaker_execution_role" ∧
    resolveRole envRoleClientError =
      Except.error (PyError.other "botocore.exceptions.ClientError") ∧
    runNotebook envRoleClientError =
      Except.error (PyError.other "botocore.exceptions.ClientError") :=
  ⟨rfl, rfl, rfl, rfl⟩

/-- Claim C5 amended: the only locally handled error is a ValueError from
the default execution-role lookup, replaced by the result of the IAM lookup
of the role named sagemaker_execution_role; any other exception, whether a
non-ValueError failure of that same lookup or a failure of any other
operation (image resolution, control-plane calls, invocations, load test,
teardown), propagates unchanged out of the run. -/
theorem c5_error_handling (env : Env) :
    (env.get_execution_role = Except.error PyError.valueError →
      resolveRole env = env.iam_get_role_arn "sagemaker_execution_role") ∧
    (∀ e, e ≠ PyError.valueError → env.get_execution_role = Except.error e →
      runNotebook env = Except.error e) ∧
    (∀ role e, resolveRole env = Except.ok role →
      env.image_uris_retrieve (hfDlcRetrieveReq env.boto_region_name) = Except.error e →
      runNotebook env = Except.error e) ∧
    (∀ role img cs1 c cs2 e, resolveRole env = Except.ok role →
      env.image_uris_retrieve (hfDlcRetrieveReq env.boto_region_name) = Except.ok img →
      mainCalls role img = cs1 ++ c :: cs2 →
      (∀ c1, c1 ∈ cs1 → ∃ s, env.call c1 = Except.ok s) →
      env.call c = Except.error e →
      runNotebook env = Except.error e) := by
  refine ⟨?_, ?_, ?_, ?_⟩
  · intro h
    simp only [resolveRole, h]
  · intro e hne h
    cases e with
    | valueError => exact absurd rfl hne
    | other s => simp only [runNotebook, resolveRole, h]
  · intro role e h1 h2
    simp only [runNotebook, h1, h2]
  · intro role img cs1 c cs2 e h1 h2 h3 h4 h5
    simp only [runNotebook, h1, h2]
    rw [h3]
    exact runCalls_error env cs1 c cs2 e h4 h5

/-- Witness for the amended claim C5 at a concrete environment. -/
theorem c5_error_handling_witness :
    resolveRole envRoleValueError =
      envRoleValueError.iam_get_role_arn "sagemaker_execution_role" :=
  (c5_error_handling envRoleValueError).1 rfl

end MceNotebook
